import Mathlib

set_option maxRecDepth 40000

/-!
Verification development for the Xocolatl-XOC front end.

The source is TypeScript/React. We embed the pieces of logic the
specification talks about:

* `jsParseFloat` — a model of JavaScript `parseFloat` returning the exact
  rational value of the parsed decimal prefix (`none` models `NaN`).
  The parse is kept in an integer representation (`jsParseFloatRep`) so that
  concrete runs are kernel-computable, and mapped to `ℚ` for statements.
* `validateAmount` — the amount validation of `SupplyTransactionModal.tsx`.
* an exact model of IEEE-754 binary64 rounding (`roundDN`), used for the
  decimal-conversion pipeline of `handleApproveClick`, which goes through
  JavaScript double arithmetic (`parseFloat`, `/`, `toFixed(18)`).
* the modal's UI state machine (`ModalState`, `step`), its render function,
  and the static asset registries and deposits table of the cdp pages.
-/

namespace Xoc

/-! ## JavaScript `parseFloat`, modelled exactly over ℚ

`parseFloat` skips leading whitespace, accepts an optional sign, then the
longest prefix shaped like `digits [. digits] [e|E [sign] digits]`; trailing
characters are ignored; if no digits are found the result is `NaN` (here
`none`).  The numeric value is kept exact: a JavaScript engine would round
it to binary64, which is modelled separately by `roundDN` where the code's
arithmetic (not just its comparisons) depends on it. -/

/-- Consume leading decimal digits: value, number of digits, rest. -/
def takeDigits : List Char → ℕ × ℕ × List Char
  | [] => (0, 0, [])
  | c :: cs =>
    if c.isDigit then
      let t := takeDigits cs
      ((c.toNat - 48) * 10 ^ t.2.1 + t.1, t.2.1 + 1, t.2.2)
    else (0, 0, c :: cs)

/-- Mantissa `digits [. digits]`: combined digits value, count of fractional
digits, rest. `none` when no digit is present (JS `NaN`). -/
def parseMantissaRep (cs : List Char) : Option (ℕ × ℕ × List Char) :=
  let t := takeDigits cs
  match t.2.2 with
  | '.' :: cs2 =>
    let u := takeDigits cs2
    if t.2.1 = 0 ∧ u.2.1 = 0 then none
    else some (t.1 * 10 ^ u.2.1 + u.1, u.2.1, u.2.2)
  | _ => if t.2.1 = 0 then none else some (t.1, 0, t.2.2)

/-- Exponent suffix after the mantissa; consumed only when digits follow
`e`/`E` (JS parses `"1e"` as `1`). -/
def parseExpAux (cs : List Char) : Option ℤ :=
  match cs with
  | '+' :: cs2 => let t := takeDigits cs2; if t.2.1 = 0 then none else some (t.1 : ℤ)
  | '-' :: cs2 => let t := takeDigits cs2; if t.2.1 = 0 then none else some (-(t.1 : ℤ))
  | _ => let t := takeDigits cs; if t.2.1 = 0 then none else some (t.1 : ℤ)

def parseExp : List Char → ℤ
  | 'e' :: cs => (parseExpAux cs).getD 0
  | 'E' :: cs => (parseExpAux cs).getD 0
  | _ => 0

/-- `parseFloat` in integer representation: signed mantissa `m`, count `f`
of fractional digits, exponent `e`; the value is `m / 10^f * 10^e`. -/
def jsParseFloatRep (s : String) : Option (ℤ × ℕ × ℤ) :=
  let cs := s.data.dropWhile fun c => c == ' ' || c == '\t' || c == '\n' || c == '\r'
  match cs with
  | '-' :: r => (parseMantissaRep r).map fun t => (-(t.1 : ℤ), t.2.1, parseExp t.2.2)
  | '+' :: r => (parseMantissaRep r).map fun t => ((t.1 : ℤ), t.2.1, parseExp t.2.2)
  | _ => (parseMantissaRep cs).map fun t => ((t.1 : ℤ), t.2.1, parseExp t.2.2)

def ratOfRep : ℤ × ℕ × ℤ → ℚ
  | (m, f, e) => (m : ℚ) / 10 ^ f * (10 : ℚ) ^ e

/-- The exact rational value of JavaScript `parseFloat`; `none` is `NaN`. -/
def jsParseFloat (s : String) : Option ℚ :=
  (jsParseFloatRep s).map ratOfRep

/-! ## `validateAmount` — SupplyTransactionModal.tsx lines 69–84

```ts
const numValue = parseFloat(value);
if (isNaN(numValue) || numValue < 0) {
  setIsValid(false); setErrorMessage("Amount must be a positive number.");
} else if (numValue > parseFloat(balance)) {
  setIsValid(false); setErrorMessage("Amount exceeds wallet balance.");
} else if (numValue === 0) {
  setIsValid(false); setErrorMessage("Amount must be greater than zero.");
} else { setIsValid(true); setErrorMessage(""); }
```

When `balance` does not parse, the comparison `numValue > NaN` is `false`
in JavaScript; the inner `match` below reproduces that. -/

structure ValidationResult where
  isValid : Bool
  errorMessage : String
deriving DecidableEq, Repr

def validateAmount (balance value : String) : ValidationResult :=
  match jsParseFloat value with
  | none => ⟨false, "Amount must be a positive number."⟩
  | some numValue =>
    if numValue < 0 then ⟨false, "Amount must be a positive number."⟩
    else
      match jsParseFloat balance with
      | some b =>
        if numValue > b then ⟨false, "Amount exceeds wallet balance."⟩
        else if numValue = 0 then ⟨false, "Amount must be greater than zero."⟩
        else ⟨true, ""⟩
      | none =>
        if numValue = 0 then ⟨false, "Amount must be greater than zero."⟩
        else ⟨true, ""⟩

/-! ## IEEE-754 binary64 rounding, exactly, on integer fractions

`handleApproveClick` (SupplyTransactionModal.tsx lines 105–117) computes

```ts
const factor = Math.pow(10, 18 - decimals);
adjustedAmount = (parseFloat(amount) / factor).toFixed(18);
approve(adjustedAmount);
```

in JavaScript double (binary64) arithmetic.  We model a positive double as
an exact fraction `m * 2^(e-52)` and implement round-to-nearest-even with a
53-bit significand on fractions of naturals.  Exponent range (overflow /
subnormals) is not modelled: all quantities of interest are far inside it.
`Math.pow(10, k)` is exact in binary64 for `k ≤ 22`, so the factor needs no
rounding of its own. -/

/-- Fuel-driven base-2 logarithm (`Nat.log2` is not kernel-reducible). -/
def log2Fuel : ℕ → ℕ → ℕ
  | 0, _ => 0
  | f + 1, n => if 2 ≤ n then log2Fuel f (n / 2) + 1 else 0

def natLog2 (n : ℕ) : ℕ := log2Fuel 512 n

/-- Is `2^k ≤ a / b`? (for `a, b ≥ 1`). -/
def le2pow (a b : ℕ) (k : ℤ) : Bool :=
  if 0 ≤ k then decide (b * 2 ^ k.toNat ≤ a) else decide (b ≤ a * 2 ^ (-k).toNat)

/-- Largest `e` with `2^e ≤ a / b` (for `a, b ≥ 1`). -/
def floorLog2N (a b : ℕ) : ℤ :=
  let e : ℤ := (natLog2 a : ℤ) - (natLog2 b : ℤ)
  if le2pow a b e then e else e - 1

/-- `(a / b) * 2^k` as a fraction of naturals. -/
def pshiftN (a b : ℕ) (k : ℤ) : ℕ × ℕ :=
  if 0 ≤ k then (a * 2 ^ k.toNat, b) else (a, b * 2 ^ (-k).toNat)

/-- Round `c / d` to the nearest natural, ties to even. -/
def roundMantissa (c d : ℕ) : ℕ :=
  let n := c / d
  let r2 := 2 * (c - n * d)
  if r2 < d then n
  else if d < r2 then n + 1
  else if n % 2 = 0 then n else n + 1

/-- The binary64 value nearest to `a / b` (for `a, b ≥ 1`), as a fraction:
scale into `[2^52, 2^53)`, round the 53-bit significand to nearest-even,
scale back. -/
def roundDN (a b : ℕ) : ℕ × ℕ :=
  let e := floorLog2N a b
  let s := pshiftN a b (52 - e)
  let m := roundMantissa s.1 s.2
  if 0 ≤ e - 52 then (m * 2 ^ (e - 52).toNat, 1) else (m, 2 ^ (52 - e).toNat)

/-- `|m| / 10^f * 10^e` as a fraction of naturals. -/
def repAbsFrac (mAbs f : ℕ) (e : ℤ) : ℕ × ℕ :=
  if 0 ≤ e then (mAbs * 10 ^ e.toNat, 10 ^ f) else (mAbs, 10 ^ f * 10 ^ (-e).toNat)

/-- `⌊sgn * (a / b) * 10^scale + 1/2⌋` for a fraction `a / b` with `b ≥ 1`:
the integer that `toFixed` (round-half-up, ECMA picks the larger candidate
on ties) followed by a `10^scale` scaling produces. -/
def fixedScaled (sgn : ℤ) (a b : ℕ) (scale : ℕ) : ℤ :=
  Int.fdiv (sgn * (2 * (a : ℤ) * 10 ^ scale) + (b : ℤ)) (2 * (b : ℤ))

/-- The token-unit integer that the approve path produces for an entered
amount: `parseFloat` (rounded to binary64), division by the exact
`Math.pow(10, 18 - decimals)` (correctly rounded), `toFixed(18)`, and the
final scaling by `10^18`.

The last step lives in the `useApproval` hook, which is not under `src/`.
Modelled from the spec: the approval call converts its decimal-string
argument into the native integer unit count (viem `parseEther`, exact on a
string with 18 fractional digits). -/
def approveUnits (amount : String) (decimals : ℕ) : Option ℤ :=
  match jsParseFloatRep amount with
  | none => none
  | some (m, f, e) =>
    if m = 0 then some 0
    else
      let sgn : ℤ := if m < 0 then -1 else 1
      let v := repAbsFrac m.natAbs f e
      let x := roundDN v.1 v.2
      if decimals < 18 then
        let q := roundDN x.1 (x.2 * 10 ^ (18 - decimals))
        some (fixedScaled sgn q.1 q.2 18)
      else
        some (fixedScaled sgn v.1 v.2 18)

/-- The token-unit integer that the supply path produces.
`handleSupplyClick` calls `toWeiConverter(parseFloat(amount), decimals)`.
Modelled from the spec: `toWeiConverter` (not under `src/`) converts a
human-entered decimal amount into the token's native integer unit count
using the token's declared decimal places — here, rounding the binary64
value of `parseFloat(amount)` scaled by `10^decimals` to the nearest
integer. -/
def supplyUnits (amount : String) (decimals : ℕ) : Option ℤ :=
  match jsParseFloatRep amount with
  | none => none
  | some (m, f, e) =>
    if m = 0 then some 0
    else
      let sgn : ℤ := if m < 0 then -1 else 1
      let v := repAbsFrac m.natAbs f e
      let x := roundDN v.1 v.2
      some (fixedScaled sgn x.1 x.2 decimals)

/-! ## The Supply modal as a state machine

State mirrors the `useState` hooks of `SupplyTransactionModal.tsx`
(lines 26–32) plus the relevant state of the `useApproval` / `useSupply`
hooks (`approvePending`, `approveError`, `supplyErr`, and whether a supply
call was issued) and the parent-owned `isOpen` prop.  Events are the UI
interactions and the asynchronous hook results; button events are only
enabled when the button is rendered and not `disabled`. -/

structure ReserveData where
  underlyingAsset : String
  symbol : String
  decimals : ℕ
deriving DecidableEq, Repr

structure Config where
  reserve : Option ReserveData
  balance : String
  wallet : Option String
deriving DecidableEq, Repr

structure ModalState where
  isOpen : Bool
  amount : String
  isValid : Bool
  errorMessage : String
  data : Option ℕ
  isError : Bool
  showSuccessIcon : Bool
  isApproved : Bool
  approvePending : Bool
  approveError : Bool
  supplyCalled : Bool
  supplyErr : Option (Option String)
deriving DecidableEq, Repr

/-- The `useState` initial values (lines 26–32); hook state starts clean. -/
def initState : ModalState :=
  { isOpen := true, amount := "", isValid := false, errorMessage := "",
    data := none, isError := false, showSuccessIcon := false,
    isApproved := false, approvePending := false, approveError := false,
    supplyCalled := false, supplyErr := none }

/-- The main form is rendered only while there is neither a supply result
nor a supply error (line 179: `!data && !isError`). -/
def formVisible (s : ModalState) : Bool := s.data.isNone && !s.isError

/-- Line 222: `disabled={!isValid || approvePending || isApproved}`. -/
def approveButtonDisabled (s : ModalState) : Bool :=
  !s.isValid || s.approvePending || s.isApproved

/-- Line 229: `disabled={!isApproved || !isValid}`. -/
def supplyButtonDisabled (s : ModalState) : Bool :=
  !s.isApproved || !s.isValid

/-- `handleClose` (lines 160–168): reset the six form fields and call
`onClose` (modelled by clearing `isOpen`); hook state is not reset. -/
def handleClose (s : ModalState) : ModalState :=
  { s with amount := "", isValid := false, errorMessage := "",
           data := none, isError := false, isApproved := false,
           isOpen := false }

/-- The `useEffect` on `[amount]` (lines 44–47) runs `validateAmount`. -/
def applyValidation (balance : String) (s : ModalState) : ModalState :=
  let v := validateAmount balance s.amount
  { s with isValid := v.isValid, errorMessage := v.errorMessage }

/-- External calls issued by the modal. -/
inductive ExtCall
  | approve (units : Option ℤ)
  | supply (asset : String) (amountWei : ℤ) (wallet : String)
deriving DecidableEq, Repr

def isSupplyCall : ExtCall → Bool
  | .supply _ _ _ => true
  | .approve _ => false

def isApproveCall : ExtCall → Bool
  | .supply _ _ _ => false
  | .approve _ => true

/-- `handleApproveClick` (lines 105–117): only acts when a wallet address
is present; issues the approval call with the adjusted amount. -/
def handleApproveClick (cfg : Config) (s : ModalState) : ModalState × Option ExtCall :=
  match cfg.wallet, cfg.reserve with
  | some _, some r =>
    ({ s with approvePending := true }, some (.approve (approveUnits s.amount r.decimals)))
  | _, _ => (s, none)

/-- `handleSupplyClick` (lines 123–135): requires a wallet address and
`isApproved`; a conversion failure is caught and issues no call. -/
def handleSupplyClick (cfg : Config) (s : ModalState) : ModalState × Option ExtCall :=
  match cfg.wallet, cfg.reserve with
  | some w, some r =>
    if s.isApproved then
      match supplyUnits s.amount r.decimals with
      | some units =>
        ({ s with supplyCalled := true }, some (.supply r.underlyingAsset units w))
      | none => (s, none)
    else (s, none)
  | _, _ => (s, none)

inductive Ev
  | input (v : String)
  | maxClick
  | approveClick
  | approveSucceeded
  | approveFailed (providerMsg : String)
  | supplyClick
  | supplySucceeded (tx : ℕ)
  | supplyFailed (msg : Option String)
  | copyErrorClick
  | iconTimeout
  | closeClick
  | reopen
deriving DecidableEq, Repr

/-- Modal rendered at all (line 170: `if (!isOpen || !reserve) return null`). -/
def uiActive (cfg : Config) (s : ModalState) : Bool :=
  s.isOpen && cfg.reserve.isSome

/-- One labelled transition; `none` when the event cannot fire (hidden or
disabled control, hook result without a pending call).  The provider's
message in `approveFailed` is dropped: `useApproval` exposes only an
`isError` flag to this component. -/
def step (cfg : Config) (s : ModalState) : Ev → Option (ModalState × Option ExtCall)
  | .input v =>
    if uiActive cfg s && formVisible s then
      some (if v = s.amount then (s, none)
            else (applyValidation cfg.balance { s with amount := v }, none))
    else none
  | .maxClick =>
    if uiActive cfg s && formVisible s then
      some (if cfg.balance = s.amount then (s, none)
            else (applyValidation cfg.balance { s with amount := cfg.balance }, none))
    else none
  | .approveClick =>
    if uiActive cfg s && formVisible s && !approveButtonDisabled s then
      some (handleApproveClick cfg s)
    else none
  | .approveSucceeded =>
    if s.approvePending then
      some ({ s with approvePending := false, isApproved := true }, none)
    else none
  | .approveFailed _ =>
    if s.approvePending then
      some ({ s with approvePending := false, approveError := true }, none)
    else none
  | .supplyClick =>
    if uiActive cfg s && formVisible s && !supplyButtonDisabled s then
      some (handleSupplyClick cfg s)
    else none
  | .supplySucceeded tx =>
    if s.supplyCalled then some ({ s with data := some tx }, none) else none
  | .supplyFailed m =>
    if s.supplyCalled then
      some ({ s with supplyErr := some m, isError := true,
                     errorMessage := m.getD "An unknown error occurred." }, none)
    else none
  | .copyErrorClick =>
    if uiActive cfg s && s.approveError then
      some (if (s.supplyErr.bind id).isSome
            then ({ s with showSuccessIcon := true }, none)
            else (s, none))
    else none
  | .iconTimeout =>
    if s.showSuccessIcon then some ({ s with showSuccessIcon := false }, none) else none
  | .closeClick =>
    if uiActive cfg s then
      some (if s.amount = "" then (handleClose s, none)
            else (applyValidation cfg.balance (handleClose s), none))
    else none
  | .reopen =>
    if !s.isOpen then some ({ s with isOpen := true }, none) else none

/-- The call (if any) a transition issues. -/
def emitted (cfg : Config) (s : ModalState) (e : Ev) : Option ExtCall :=
  (step cfg s e).bind fun p => p.2

/-- Run a list of events, ignoring impossible ones and discarding calls. -/
def runEvents (cfg : Config) (s : ModalState) (evs : List Ev) : ModalState :=
  evs.foldl (fun t e => match step cfg t e with | some (u, _) => u | none => t) s

def StepRel (cfg : Config) (s t : ModalState) : Prop :=
  ∃ e out, step cfg s e = some (t, out)

/-- States reachable from the freshly mounted modal. -/
def Reachable (cfg : Config) (s : ModalState) : Prop :=
  Relation.ReflTransGen (StepRel cfg) initState s

/-- What the modal shows (lines 170–266). -/
structure Render where
  formShown : Bool
  formErrorText : Option String
  successShown : Bool
  errorViewShown : Bool
  errorViewText : Option String
  copyErrorButtonShown : Bool
deriving DecidableEq, Repr

/-- The render function: the form when no supply result or error, the
success view on `data`, and the error view on `approveError` — whose text
is `error?.message` from the `useSupply` hook (line 253), not the approval
error. -/
def render (cfg : Config) (s : ModalState) : Option Render :=
  if !s.isOpen || cfg.reserve.isNone then none
  else some
    { formShown := formVisible s
      formErrorText :=
        if formVisible s && s.errorMessage != "" then some s.errorMessage else none
      successShown := s.data.isSome
      errorViewShown := s.approveError
      errorViewText := if s.approveError then s.supplyErr.bind id else none
      copyErrorButtonShown := s.approveError }

/-! ## YourDeposits.tsx — batch reads, formatted balances, deposits table

The component reads `balanceOfBatch` twice (deposits, mints) and
`checkRemainingMintingPower`; a read that has produced no data is `none`.
Lines 138–147:

```ts
const formattedBalances = batchDeposits
  ? batchDeposits.map(balance => Number(balance) / 10 ** 18) : [0, 0, 0, 0, 0];
const formattedMintingPower = checkRemainingMintingPower
  ? (Number(checkRemainingMintingPower) / 10 ** 18).toString() : "0";
```

Row amounts are `parseFloat(formattedBalances[i].toFixed(6))`, modelled by
`roundTo6` (exact on the rationals used here). -/

def formattedBalances (batch : Option (List ℤ)) : List ℚ :=
  match batch with
  | some l => l.map fun b => (b : ℚ) / 10 ^ 18
  | none => [0, 0, 0, 0, 0]

def formattedMints (batch : Option (List ℤ)) : List ℚ :=
  match batch with
  | some l => l.map fun b => (b : ℚ) / 10 ^ 18
  | none => [0, 0, 0, 0, 0]

/-- `checkRemainingMintingPower ? (Number(..)/1e18).toString() : "0"`, then
`parseFloat` in the rows; a bigint `0` is falsy and also yields `0`. -/
def formattedMintingPower (p : Option ℤ) : ℚ :=
  match p with
  | some v => if v = 0 then 0 else (v : ℚ) / 10 ^ 18
  | none => 0

/-- `parseFloat(x.toFixed(6))`: round half-up to six decimals. -/
def roundTo6 (q : ℚ) : ℚ := (⌊q * 10 ^ 6 + 1 / 2⌋ : ℤ) / 10 ^ 6

structure DepositRow where
  symbol : String
  amount : ℚ
  minted : ℚ
  mintingPower : ℚ
  houseofReserveContract : String
  assetContract : String
  houseOfCoinContract : String
  assetsAccountantContract : String
  usageAsCollateralEnabled : Bool
deriving DecidableEq, Repr

/-- The `deposits` object literal (lines 149–267), keyed by chain id. -/
def depositsFor (fb fm : List ℚ) (mp : ℚ) (chainId : ℤ) : List DepositRow :=
  let bal : ℕ → ℚ := fun i => fb.getD i 0
  let mnt : ℕ → ℚ := fun i => fm.getD i 0
  if chainId = 56 then
    [ { symbol := "WETH", amount := roundTo6 (bal 0), minted := roundTo6 (mnt 0),
        mintingPower := mp,
        houseofReserveContract := "0xd411BE9A105Ea7701FabBe58C2834b7033EBC203",
        assetContract := "0x2170ed0880ac9a755fd29b2688956bd959f933f8",
        houseOfCoinContract := "0x518Ad4acAdb3FdE4Ab990a79A0583FA8c4E35FcA",
        assetsAccountantContract := "0xB90996A70C957a1496e349434CF0E030A9f693A4",
        usageAsCollateralEnabled := true },
      { symbol := "WBNB", amount := roundTo6 (bal 1), minted := roundTo6 (mnt 1),
        mintingPower := mp,
        houseofReserveContract := "0x070ccE6887E70b75015F948b12601D1E759D2024",
        assetContract := "0xbb4cdb9cbd36b01bd1cbaebf2de08d9173bc095c",
        houseOfCoinContract := "0x518Ad4acAdb3FdE4Ab990a79A0583FA8c4E35FcA",
        assetsAccountantContract := "0xB90996A70C957a1496e349434CF0E030A9f693A4",
        usageAsCollateralEnabled := false } ]
  else if chainId = 137 then
    [ { symbol := "WETH", amount := roundTo6 (bal 0), minted := roundTo6 (mnt 0),
        mintingPower := mp,
        houseofReserveContract := "0xd411BE9A105Ea7701FabBe58C2834b7033EBC203",
        assetContract := "0x7ceb23fd6bc0add59e62ac25578270cff1b9f619",
        houseOfCoinContract := "0x7ed1acd46de3a4e63f2d3b0f4fb5532e113a520b",
        assetsAccountantContract := "0xB90996A70C957a1496e349434CF0E030A9f693A4",
        usageAsCollateralEnabled := true },
      { symbol := "wstETH", amount := roundTo6 (bal 1), minted := roundTo6 (mnt 1),
        mintingPower := mp,
        houseofReserveContract := "0x28C7DF27e5bC7Cb004c8D4bb2C2D91f246D0A2C9",
        assetContract := "0x03b54a6e9a984069379fae1a4fc4dbae93b3bccd",
        houseOfCoinContract := "0x7ed1acd46de3a4e63f2d3b0f4fb5532e113a520b",
        assetsAccountantContract := "0xB90996A70C957a1496e349434CF0E030A9f693A4",
        usageAsCollateralEnabled := false },
      { symbol := "MATICX", amount := roundTo6 (bal 2), minted := roundTo6 (mnt 2),
        mintingPower := mp,
        houseofReserveContract := "0x102dda5f4621a08dafD327f29f9c815f851846dC",
        assetContract := "0xfa68fb4628dff1028cfec22b4162fccd0d45efb6",
        houseOfCoinContract := "0x7ed1acd46de3a4e63f2d3b0f4fb5532e113a520b",
        assetsAccountantContract := "0xB90996A70C957a1496e349434CF0E030A9f693A4",
        usageAsCollateralEnabled := true },
      { symbol := "WMATIC", amount := roundTo6 (bal 3), minted := roundTo6 (mnt 3),
        mintingPower := mp,
        houseofReserveContract := "0xdB9Dd25660240415d95144C6CE4f21f00Edf8168",
        assetContract := "0x0d500B1d8E8eF31E21C99d1Db9A6444d3ADf1270",
        houseOfCoinContract := "0x7ed1acd46de3a4e63f2d3b0f4fb5532e113a520b",
        assetsAccountantContract := "0xB90996A70C957a1496e349434CF0E030A9f693A4",
        usageAsCollateralEnabled := false },
      { symbol := "WBTC", amount := roundTo6 (bal 4), minted := roundTo6 (mnt 4),
        mintingPower := mp,
        houseofReserveContract := "0x983A0eC44bf1BB11592a8bD5F91f05adE4F44D81",
        assetContract := "0x1bfd67037b42cf73acf2047067bd4f2c47d9bfd6",
        houseOfCoinContract := "0x7ed1acd46de3a4e63f2d3b0f4fb5532e113a520b",
        assetsAccountantContract := "0xB90996A70C957a1496e349434CF0E030A9f693A4",
        usageAsCollateralEnabled := true } ]
  else if chainId = 8453 then
    [ { symbol := "WETH", amount := roundTo6 (bal 0), minted := roundTo6 (mnt 0),
        mintingPower := mp,
        houseofReserveContract := "0xfF69E183A863151B4152055974aa648b3165014D",
        assetContract := "0x4200000000000000000000000000000000000006",
        houseOfCoinContract := "0x02c531Cd9791dD3A31428B2987A82361D72F9b13",
        assetsAccountantContract := "0xB93EcD005B6053c6F8428645aAA879e7028408C7",
        usageAsCollateralEnabled := true },
      { symbol := "cbETH", amount := roundTo6 (bal 1), minted := roundTo6 (mnt 1),
        mintingPower := mp,
        houseofReserveContract := "0x070ccE6887E70b75015F948b12601D1E759D2024",
        assetContract := "0x2Ae3F1Ec7F1F5012CFEab0185bfc7aa3cf0DEc22",
        houseOfCoinContract := "0x02c531Cd9791dD3A31428B2987A82361D72F9b13",
        assetsAccountantContract := "0xB93EcD005B6053c6F8428645aAA879e7028408C7",
        usageAsCollateralEnabled := false } ]
  else []

/-- `const chainDeposits = deposits[chainId] || []` (line 269). -/
def chainDeposits (batch mints : Option (List ℤ)) (power : Option ℤ)
    (chainId : ℤ) : List DepositRow :=
  depositsFor (formattedBalances batch) (formattedMints mints)
    (formattedMintingPower power) chainId

/-- `formattedBalances.every(balance => balance === 0)` (line 270): all
five batch slots, whatever the chain's row count. -/
def allDepositsZero (batch : Option (List ℤ)) : Bool :=
  (formattedBalances batch).all fun b => b == 0

/-- Line 280: the table is rendered when
`chainDeposits.length > 0 && !allDepositsZero`; otherwise the
"Nothing deposited yet" placeholder. -/
def showsDepositsTable (batch mints : Option (List ℤ)) (power : Option ℤ)
    (chainId : ℤ) : Bool :=
  decide (0 < (chainDeposits batch mints power chainId).length)
    && !allDepositsZero batch

/-! ## Lending page header (unnamed source, `Lending`) — loading / error /
stats choice around `ProfileStats`. -/

inductive HeaderView
  | loadingView
  | errorPlaceholder
  | stats
deriving DecidableEq, Repr

def lendingHeaderView (isLoading isError : Bool) : HeaderView :=
  if isLoading then .loadingView
  else if isError then .errorPlaceholder
  else .stats

/-! ## Static asset registries of the two DepositTable components

`CdpDepositTable` is `src/packages/nextjs/app/cdp/components/tables/DepositTable.tsx`
(lines 11–89); `TrDepositTable` is the translated variant in the unnamed
source file (lines 12–76).  `chainAssets` is
`const chainAssets = assets[chainId] || []`, and the table body maps one
`<tr>` per element of `chainAssets`. -/

structure AssetDescr where
  name : String
  maxLTV : String
  liquidationThreshold : String
  houseOfReserveContract : String
  assetContract : String
deriving DecidableEq, Repr

/-- A rendered table row: one per asset, with the two action buttons. -/
structure AssetRow where
  nameCell : String
  maxLTVCell : String
  liquidationThresholdCell : String
  hasDepositButton : Bool
  hasWithdrawButton : Bool
deriving DecidableEq, Repr

def mkAssetRow (a : AssetDescr) : AssetRow :=
  { nameCell := a.name, maxLTVCell := a.maxLTV,
    liquidationThresholdCell := a.liquidationThreshold,
    hasDepositButton := true, hasWithdrawButton := true }

namespace CdpDepositTable

def assets (chainId : ℤ) : Option (List AssetDescr) :=
  if chainId = 56 then some
    [ ⟨"WETH", "85%", "85%", "0xd411BE9A105Ea7701FabBe58C2834b7033EBC203",
        "0x2170ed0880ac9a755fd29b2688956bd959f933f8"⟩,
      ⟨"WBNB", "70%", "85%", "0x070ccE6887E70b75015F948b12601D1E759D2024",
        "0xbb4cdb9cbd36b01bd1cbaebf2de08d9173bc095c"⟩ ]
  else if chainId = 137 then some
    [ ⟨"WETH", "85%", "85%", "0xd411BE9A105Ea7701FabBe58C2834b7033EBC203",
        "0x7ceb23fd6bc0add59e62ac25578270cff1b9f619"⟩,
      ⟨"wstETH", "70%", "85%", "0x28C7DF27e5bC7Cb004c8D4bb2C2D91f246D0A2C9",
        "0x03b54a6e9a984069379fae1a4fc4dbae93b3bccd"⟩,
      ⟨"MATICX", "60%", "85%", "0x102dda5f4621a08dafD327f29f9c815f851846dC",
        "0xfa68fb4628dff1028cfec22b4162fccd0d45efb6"⟩,
      ⟨"WMATIC", "70%", "85%", "0xdB9Dd25660240415d95144C6CE4f21f00Edf8168",
        "0x0d500B1d8E8eF31E21C99d1Db9A6444d3ADf1270"⟩,
      ⟨"WBTC", "70%", "85%", "0x983A0eC44bf1BB11592a8bD5F91f05adE4F44D81",
        "0x1bfd67037b42cf73acf2047067bd4f2c47d9bfd6"⟩ ]
  else if chainId = 8453 then some
    [ ⟨"WETH", "80%", "85%", "0xfF69E183A863151B4152055974aa648b3165014D",
        "0x4200000000000000000000000000000000000006"⟩,
      ⟨"cbETH", "80%", "85%", "0x5c4a154690AE52844F151bcF3aA44885db3c8A58",
        "0x2Ae3F1Ec7F1F5012CFEab0185bfc7aa3cf0DEc22"⟩ ]
  else none

def chainAssets (chainId : ℤ) : List AssetDescr := (assets chainId).getD []

def tableRows (chainId : ℤ) : List AssetRow := (chainAssets chainId).map mkAssetRow

end CdpDepositTable

namespace TrDepositTable

def assets (chainId : ℤ) : Option (List AssetDescr) :=
  if chainId = 56 then some
    [ ⟨"WETH", "85%", "85%", "0xd411BE9A105Ea7701FabBe58C2834b7033EBC203",
        "0x2170ed0880ac9a755fd29b2688956bd959f933f8"⟩,
      ⟨"WBNB", "70%", "85%", "0x070ccE6887E70b75015F948b12601D1E759D2024",
        "0xbb4cdb9cbd36b01bd1cbaebf2de08d9173bc095c"⟩ ]
  else if chainId = 137 then some
    [ ⟨"WETH", "85%", "85%", "0x2718644E0C38A6a1F82136FC31dcA00DFCdF92a3",
        "0x7ceb23fd6bc0add59e62ac25578270cff1b9f619"⟩,
      ⟨"MATICX", "60%", "85%", "0x76CAc0bC384a49485627D2235fE132e3038b45BB",
        "0xfa68fb4628dff1028cfec22b4162fccd0d45efb6"⟩,
      ⟨"WMATIC", "70%", "85%", "0xF56293025437Db5C0024a37dfcEc792125d56A48",
        "0x0d500B1d8E8eF31E21C99d1Db9A6444d3ADf1270"⟩ ]
  else if chainId = 8453 then some
    [ ⟨"WETH", "80%", "85%", "0xfF69E183A863151B4152055974aa648b3165014D",
        "0x4200000000000000000000000000000000000006"⟩,
      ⟨"cbETH", "80%", "85%", "0x5c4a154690AE52844F151bcF3aA44885db3c8A58",
        "0x2Ae3F1Ec7F1F5012CFEab0185bfc7aa3cf0DEc22"⟩ ]
  else none

def chainAssets (chainId : ℤ) : List AssetDescr := (assets chainId).getD []

def tableRows (chainId : ℤ) : List AssetRow := (chainAssets chainId).map mkAssetRow

end TrDepositTable

/-! ## Helper evaluations of the parser on the concrete strings used by
the claims. -/

theorem parse_ten_half : jsParseFloat "10.5" = some (21 / 2) := by
  simp [jsParseFloat, show jsParseFloatRep "10.5" = some (105, 1, 0) from by decide, ratOfRep]
  norm_num

theorem parse_ten_six : jsParseFloat "10.6" = some (53 / 5) := by
  simp [jsParseFloat, show jsParseFloatRep "10.6" = some (106, 1, 0) from by decide, ratOfRep]
  norm_num

theorem parse_zero : jsParseFloat "0" = some 0 := by
  simp [jsParseFloat, show jsParseFloatRep "0" = some (0, 0, 0) from by decide, ratOfRep]

theorem parse_one : jsParseFloat "1" = some 1 := by
  simp [jsParseFloat, show jsParseFloatRep "1" = some (1, 0, 0) from by decide, ratOfRep]

theorem parse_ten : jsParseFloat "10" = some 10 := by
  simp [jsParseFloat, show jsParseFloatRep "10" = some (10, 0, 0) from by decide, ratOfRep]

theorem parse_pct85 : jsParseFloat "85%" = some 85 := by
  simp [jsParseFloat, show jsParseFloatRep "85%" = some (85, 0, 0) from by decide, ratOfRep]

theorem parse_pct80 : jsParseFloat "80%" = some 80 := by
  simp [jsParseFloat, show jsParseFloatRep "80%" = some (80, 0, 0) from by decide, ratOfRep]

theorem parse_pct70 : jsParseFloat "70%" = some 70 := by
  simp [jsParseFloat, show jsParseFloatRep "70%" = some (70, 0, 0) from by decide, ratOfRep]

theorem parse_pct60 : jsParseFloat "60%" = some 60 := by
  simp [jsParseFloat, show jsParseFloatRep "60%" = some (60, 0, 0) from by decide, ratOfRep]

theorem validate_ten_one : validateAmount "10" "1" = ⟨true, ""⟩ := by
  simp [validateAmount, parse_ten, parse_one]

/-! ## C1 — `validateAmount` accepts exactly the positive amounts within
the balance -/

/-- C1: for every amount string, `validateAmount` sets the validity flag
iff the string parses as a positive number not exceeding the wallet
balance; with balance `"10.5"`, input `"10.5"` is accepted, `"10.6"` is
rejected with "Amount exceeds wallet balance.", and `"0"` is rejected with
"Amount must be greater than zero.". -/
theorem validateAmount_correct (balance value : String) (b : ℚ)
    (hb : jsParseFloat balance = some b) :
    ((validateAmount balance value).isValid = true ↔
      ∃ q, jsParseFloat value = some q ∧ 0 < q ∧ q ≤ b)
    ∧ validateAmount "10.5" "10.5" = ⟨true, ""⟩
    ∧ validateAmount "10.5" "10.6" = ⟨false, "Amount exceeds wallet balance."⟩
    ∧ validateAmount "10.5" "0" = ⟨false, "Amount must be greater than zero."⟩ := by
  refine ⟨?_, ?_, ?_, ?_⟩
  · cases hq : jsParseFloat value with
    | none => simp [validateAmount, hq]
    | some q =>
      simp only [validateAmount, hq, hb]
      split_ifs with h1 h2 h3
      · simp only [Bool.false_eq_true, false_iff]
        rintro ⟨q', hq', h0, _⟩
        cases hq'
        linarith
      · simp only [Bool.false_eq_true, false_iff]
        rintro ⟨q', hq', _, hle⟩
        cases hq'
        linarith
      · simp only [Bool.false_eq_true, false_iff]
        rintro ⟨q', hq', h0, _⟩
        cases hq'
        exact absurd h3 (by linarith)
      · simp only [true_iff]
        exact ⟨q, rfl, lt_of_le_of_ne (not_lt.mp h1) (Ne.symm h3), not_lt.mp h2⟩
  · simp [validateAmount, parse_ten_half]
    norm_num
  · simp [validateAmount, parse_ten_half, parse_ten_six]
    norm_num
  · simp [validateAmount, parse_ten_half, parse_zero]
    norm_num

/-- Witness for C1 at balance `"10.5"`. -/
theorem validateAmount_correct_witness :
    (((validateAmount "10.5" "10.5").isValid = true ↔
      ∃ q, jsParseFloat "10.5" = some q ∧ 0 < q ∧ q ≤ 21 / 2)
    ∧ validateAmount "10.5" "10.5" = ⟨true, ""⟩
    ∧ validateAmount "10.5" "10.6" = ⟨false, "Amount exceeds wallet balance."⟩
    ∧ validateAmount "10.5" "0" = ⟨false, "Amount must be greater than zero."⟩) :=
  validateAmount_correct "10.5" "10.5" (21 / 2) parse_ten_half

/-! ## C2 — decimal conversion for tokens with fewer than 18 decimals -/

/-- C2 counterexample: the conversion pipeline is *not* lossless for every
amount.  `"9007199254.740995"` has exactly six decimals, so its exact
six-decimal unit count is `9007199254740995`; the approve path (through
binary64 `parseFloat`, division by `10^12` and `toFixed(18)`) produces
`9007199254740996`. -/
theorem approveUnits_precision_loss :
    jsParseFloat "9007199254.740995" = some ((9007199254740995 : ℚ) / 10 ^ 6)
    ∧ approveUnits "9007199254.740995" 6 = some 9007199254740996
    ∧ (9007199254740996 : ℤ) ≠ 9007199254740995 := by
  refine ⟨?_, by decide, by decide⟩
  simp [jsParseFloat,
    show jsParseFloatRep "9007199254.740995" = some (9007199254740995, 6, 0) from by decide,
    ratOfRep]

/-- C2 (amended): for a token with 6 decimals and human amount
`"1.234567"`, both conversion paths produce exactly `1234567` native
units; the universal no-precision-loss statement fails (see the
counterexample). -/
theorem decimal_conversion_exact_on_example :
    jsParseFloat "1.234567" = some ((1234567 : ℚ) / 10 ^ 6)
    ∧ approveUnits "1.234567" 6 = some 1234567
    ∧ supplyUnits "1.234567" 6 = some 1234567 := by
  refine ⟨?_, by decide, by decide⟩
  simp [jsParseFloat,
    show jsParseFloatRep "1.234567" = some (1234567, 6, 0) from by decide, ratOfRep]

/-! ## C3, C4, C10 — modal state machine invariants -/

/-- A concrete configuration used by witnesses: an 18-decimal reserve, a
wallet, balance `"10"`. -/
def cfg0 : Config :=
  { reserve := some { underlyingAsset := "0x2170ed0880ac9a755fd29b2688956bd959f933f8",
                      symbol := "WETH", decimals := 18 },
    balance := "10", wallet := some "0x03397CabEAc33EE8FE3Eb79219Df7161C414dF4B" }

/-- C3: in every reachable state with the approval flag still false, the
supply button is disabled and no transition emits the external supply
call, whatever the amount's validity. -/
theorem supply_needs_approval (cfg : Config) (s : ModalState) (e : Ev)
    (_hs : Reachable cfg s) (h : s.isApproved = false) :
    supplyButtonDisabled s = true ∧
    Option.all (fun c => !isSupplyCall c) (emitted cfg s e) = true := by
  constructor
  · simp [supplyButtonDisabled, h]
  · have hd : supplyButtonDisabled s = true := by simp [supplyButtonDisabled, h]
    cases e with
    | input v =>
      simp only [emitted, step]
      split
      · simp only [Option.some_bind]; split <;> rfl
      · rfl
    | maxClick =>
      simp only [emitted, step]
      split
      · simp only [Option.some_bind]; split <;> rfl
      · rfl
    | approveClick =>
      simp only [emitted, step]
      split
      · simp only [Option.some_bind]
        rcases hw : cfg.wallet with _ | w <;> rcases hr : cfg.reserve with _ | r <;>
          simp [handleApproveClick, hw, hr, isSupplyCall]
      · rfl
    | approveSucceeded => simp only [emitted, step]; split <;> rfl
    | approveFailed m => simp only [emitted, step]; split <;> rfl
    | supplyClick => simp [emitted, step, hd]
    | supplySucceeded tx => simp only [emitted, step]; split <;> rfl
    | supplyFailed m => simp only [emitted, step]; split <;> rfl
    | copyErrorClick =>
      simp only [emitted, step]
      split
      · simp only [Option.some_bind]; split <;> rfl
      · rfl
    | iconTimeout => simp only [emitted, step]; split <;> rfl
    | closeClick =>
      simp only [emitted, step]
      split
      · simp only [Option.some_bind]; split <;> rfl
      · rfl
    | reopen => simp only [emitted, step]; split <;> rfl

/-- Witness for C3 at the initial state and a supply click. -/
theorem supply_needs_approval_witness :
    supplyButtonDisabled initState = true ∧
    Option.all (fun c => !isSupplyCall c) (emitted cfg0 initState Ev.supplyClick) = true :=
  supply_needs_approval cfg0 initState Ev.supplyClick Relation.ReflTransGen.refl rfl

/-- C10: an approve call is emitted only from a state where the amount is
valid, no approval is pending and approval has not already succeeded —
i.e. never while pending, after success, or with an invalid amount — and
the disabled predicate of the approve button holds exactly in those
excluded states. -/
theorem approve_fires_only_when_enabled (cfg : Config) (s : ModalState) (e : Ev)
    (h : Option.any isApproveCall (emitted cfg s e) = true) :
    (s.isValid = true ∧ s.approvePending = false ∧ s.isApproved = false)
    ∧ approveButtonDisabled s = false
    ∧ (approveButtonDisabled s = true ↔
        (s.isValid = false ∨ s.approvePending = true ∨ s.isApproved = true)) := by
  have hiff : ∀ t : ModalState, approveButtonDisabled t = true ↔
      (t.isValid = false ∨ t.approvePending = true ∨ t.isApproved = true) := by
    intro t
    cases hv : t.isValid <;> cases hp : t.approvePending <;> cases ha : t.isApproved <;>
      simp [approveButtonDisabled, hv, hp, ha]
  have hmain : approveButtonDisabled s = false := by
    cases e with
    | approveClick =>
      simp only [emitted, step] at h
      by_cases hg : (uiActive cfg s && formVisible s && !approveButtonDisabled s) = true
      · have h2 := (Bool.and_eq_true _ _).mp hg
        simpa using h2.2
      · rw [if_neg hg] at h; simp at h
    | input v =>
      simp only [emitted, step] at h
      split at h
      · simp only [Option.some_bind] at h; split at h <;> simp at h
      · simp at h
    | maxClick =>
      simp only [emitted, step] at h
      split at h
      · simp only [Option.some_bind] at h; split at h <;> simp at h
      · simp at h
    | approveSucceeded =>
      simp only [emitted, step] at h; split at h <;> simp at h
    | approveFailed m =>
      simp only [emitted, step] at h; split at h <;> simp at h
    | supplyClick =>
      simp only [emitted, step] at h
      split at h
      · simp only [Option.some_bind] at h
        rcases hw : cfg.wallet with _ | w <;> rcases hr : cfg.reserve with _ | r <;>
          simp only [handleSupplyClick, hw, hr] at h <;> try simp at h
        split at h
        · split at h <;> simp [isApproveCall] at h
        · simp at h
      · simp at h
    | supplySucceeded tx =>
      simp only [emitted, step] at h; split at h <;> simp at h
    | supplyFailed m =>
      simp only [emitted, step] at h; split at h <;> simp at h
    | copyErrorClick =>
      simp only [emitted, step] at h
      split at h
      · simp only [Option.some_bind] at h; split at h <;> simp at h
      · simp at h
    | iconTimeout =>
      simp only [emitted, step] at h; split at h <;> simp at h
    | closeClick =>
      simp only [emitted, step] at h
      split at h
      · simp only [Option.some_bind] at h; split at h <;> simp at h
      · simp at h
    | reopen =>
      simp only [emitted, step] at h; split at h <;> simp at h
  refine ⟨?_, hmain, hiff s⟩
  rcases hv : s.isValid with _ | _ <;> rcases hp : s.approvePending with _ | _ <;>
    rcases ha : s.isApproved with _ | _ <;>
    simp [approveButtonDisabled, hv, hp, ha] at hmain ⊢

/-- A valid, unapproved state: amount `"1"` entered and validated. -/
def validState : ModalState := { initState with amount := "1", isValid := true }

/-- Witness for C10: in `validState` the approve click does emit the call,
and the state is indeed valid, not pending, not approved. -/
theorem approve_fires_only_when_enabled_witness :
    (validState.isValid = true ∧ validState.approvePending = false ∧
      validState.isApproved = false)
    ∧ approveButtonDisabled validState = false
    ∧ (approveButtonDisabled validState = true ↔
        (validState.isValid = false ∨ validState.approvePending = true ∨
          validState.isApproved = true)) :=
  approve_fires_only_when_enabled cfg0 validState Ev.approveClick (by decide)

/-! ## C4 — what closing the modal leaves behind

`handleClose` (lines 160–168) writes the `useState` initial values into
all six form fields and calls `onClose`.  But setting `amount` to `""`
re-fires the `useEffect` on `[amount]` (lines 44–47), which runs
`validateAmount` on the empty string: `parseFloat("")` is `NaN`, so the
error message is immediately rewritten to
`"Amount must be a positive number."`.  Hence, when the modal is closed
while an amount was entered, the state the next open shows does **not**
carry the initial empty error message. -/

/-- Validating the empty amount always produces the NaN error, whatever
the balance. -/
theorem validate_empty (b : String) :
    validateAmount b "" = ⟨false, "Amount must be a positive number."⟩ := by
  simp [validateAmount, show jsParseFloat "" = none from rfl]

/-- C4 counterexample: enter `"1"`, then close.  The settled post-close
error message is `"Amount must be a positive number."`, not the initial
`""`, so closing does not reset every form field to its initial value. -/
theorem close_does_not_restore_initial_message :
    (runEvents cfg0 initState [Ev.input "1", Ev.closeClick]).errorMessage =
      "Amount must be a positive number."
    ∧ initState.errorMessage = ""
    ∧ (runEvents cfg0 initState [Ev.input "1", Ev.closeClick]).errorMessage ≠
        initState.errorMessage := by
  have hrun : (runEvents cfg0 initState [Ev.input "1", Ev.closeClick]).errorMessage =
      "Amount must be a positive number." := by
    simp [runEvents, step, cfg0, initState, uiActive, formVisible, applyValidation,
      validate_ten_one, validate_empty, handleClose]
  exact ⟨hrun, rfl, by rw [hrun]; decide⟩

/-- C4 (amended): the close transition resets amount, validity flag,
submission result, error flag and approval flag to their initial values;
the error message is reset by `handleClose` but, whenever the amount was
nonempty, the validation effect re-fired by clearing it immediately
rewrites it to `"Amount must be a positive number."` — it stays at its
initial value only when the amount was already empty. -/
theorem close_resets_form_fields (cfg : Config) (s t : ModalState)
    (out : Option ExtCall)
    (h : step cfg s Ev.closeClick = some (t, out)) :
    t.amount = initState.amount ∧
    t.isValid = initState.isValid ∧
    t.data = initState.data ∧
    t.isError = initState.isError ∧
    t.isApproved = initState.isApproved ∧
    (s.amount = "" → t.errorMessage = initState.errorMessage) ∧
    (s.amount ≠ "" → t.errorMessage = "Amount must be a positive number.") := by
  simp only [step] at h
  split at h
  · split at h
    · rename_i hamt
      simp only [Option.some.injEq, Prod.mk.injEq] at h
      obtain ⟨rfl, rfl⟩ := h
      refine ⟨rfl, rfl, rfl, rfl, rfl, fun _ => rfl, fun hne => absurd hamt hne⟩
    · rename_i hamt
      simp only [Option.some.injEq, Prod.mk.injEq] at h
      obtain ⟨rfl, rfl⟩ := h
      refine ⟨rfl, ?_, rfl, rfl, rfl, fun heq => absurd heq hamt, fun _ => ?_⟩
      · simp [applyValidation, handleClose, validate_empty, initState]
      · simp [applyValidation, handleClose, validate_empty]
  · exact absurd h (by simp)

/-- Witness for C4's amended theorem: closing from `validState`
(amount `"1"`). -/
theorem close_resets_form_fields_witness :
    (applyValidation cfg0.balance (handleClose validState)).amount =
      initState.amount ∧
    (applyValidation cfg0.balance (handleClose validState)).isValid =
      initState.isValid ∧
    (applyValidation cfg0.balance (handleClose validState)).data =
      initState.data ∧
    (applyValidation cfg0.balance (handleClose validState)).isError =
      initState.isError ∧
    (applyValidation cfg0.balance (handleClose validState)).isApproved =
      initState.isApproved ∧
    (validState.amount = "" →
      (applyValidation cfg0.balance (handleClose validState)).errorMessage =
        initState.errorMessage) ∧
    (validState.amount ≠ "" →
      (applyValidation cfg0.balance (handleClose validState)).errorMessage =
        "Amount must be a positive number.") :=
  close_resets_form_fields cfg0 validState _ none (by rfl)

/-! ## C5 — table components and the per-chain asset lookup -/

/-- C5: a network id with no registered list yields the empty asset list
and zero rendered rows, without error; for any network id the tables
render exactly one row per asset of its list. -/
theorem tables_one_row_per_asset (u c : ℤ)
    (h1 : CdpDepositTable.assets u = none) (h2 : TrDepositTable.assets u = none) :
    CdpDepositTable.chainAssets u = [] ∧ CdpDepositTable.tableRows u = [] ∧
    TrDepositTable.chainAssets u = [] ∧ TrDepositTable.tableRows u = [] ∧
    CdpDepositTable.tableRows c = (CdpDepositTable.chainAssets c).map mkAssetRow ∧
    (CdpDepositTable.tableRows c).length = (CdpDepositTable.chainAssets c).length ∧
    TrDepositTable.tableRows c = (TrDepositTable.chainAssets c).map mkAssetRow ∧
    (TrDepositTable.tableRows c).length = (TrDepositTable.chainAssets c).length := by
  refine ⟨?_, ?_, ?_, ?_, rfl, ?_, rfl, ?_⟩ <;>
    simp [CdpDepositTable.chainAssets, TrDepositTable.chainAssets,
      CdpDepositTable.tableRows, TrDepositTable.tableRows, h1, h2]

/-- Witness for C5: chain id `2` is unregistered, chain id `137` is
registered. -/
theorem tables_one_row_per_asset_witness :
    CdpDepositTable.chainAssets 2 = [] ∧ CdpDepositTable.tableRows 2 = [] ∧
    TrDepositTable.chainAssets 2 = [] ∧ TrDepositTable.tableRows 2 = [] ∧
    CdpDepositTable.tableRows 137 = (CdpDepositTable.chainAssets 137).map mkAssetRow ∧
    (CdpDepositTable.tableRows 137).length = (CdpDepositTable.chainAssets 137).length ∧
    TrDepositTable.tableRows 137 = (TrDepositTable.chainAssets 137).map mkAssetRow ∧
    (TrDepositTable.tableRows 137).length = (TrDepositTable.chainAssets 137).length :=
  tables_one_row_per_asset 2 137 (by decide) (by decide)

/-! ## C6 — error surfacing in the Supply modal

The spec says approval/submission errors are surfaced verbatim with a
copy-to-clipboard affordance.  The code does not do that: the view gated
by `approveError` displays `error?.message` of the **useSupply** hook
(the approval error's message is never exposed to the component), and a
supply error sets `isError`, which hides the form — and no other view is
gated on it, so nothing is displayed at all. -/

/-- C6: after a failed approval (provider message
`"User rejected the request."`), the error view opens with a copy button
but an empty message; after a failed supply (provider message
`"execution reverted"`), no view at all shows the stored message and no
copy button is rendered. -/
theorem provider_errors_not_surfaced :
    render cfg0 (runEvents cfg0 initState
        [.input "1", .approveClick, .approveFailed "User rejected the request."]) =
      some { formShown := true, formErrorText := none, successShown := false,
             errorViewShown := true, errorViewText := none,
             copyErrorButtonShown := true }
    ∧ render cfg0 (runEvents cfg0 initState
        [.input "1", .approveClick, .approveSucceeded, .supplyClick,
          .supplyFailed (some "execution reverted")]) =
      some { formShown := false, formErrorText := none, successShown := false,
             errorViewShown := false, errorViewText := none,
             copyErrorButtonShown := false }
    ∧ (runEvents cfg0 initState
        [.input "1", .approveClick, .approveSucceeded, .supplyClick,
          .supplyFailed (some "execution reverted")]).errorMessage =
        "execution reverted" := by
  have hsu : supplyUnits "1" 18 = some 1000000000000000000 := by decide
  refine ⟨?_, ?_, ?_⟩ <;>
    simp [runEvents, step, cfg0, initState, uiActive, formVisible,
      approveButtonDisabled, supplyButtonDisabled, applyValidation,
      validate_ten_one, handleApproveClick, handleSupplyClick, hsu,
      render]

/-! ## C7 — failed reads degrade to zeros and placeholders -/

/-- C7: when the batch deposit, batch mint and minting-power reads have
produced no data, every row of the per-chain deposits table displays zero
amount, zero minted and zero minting power; the deposits section falls
back to its placeholder, and the lending header on a read error shows a
placeholder rather than failing. -/
theorem failed_reads_show_zeros (c : ℤ) (r : DepositRow)
    (hr : r ∈ chainDeposits none none none c) :
    r.amount = 0 ∧ r.minted = 0 ∧ r.mintingPower = 0 ∧
    showsDepositsTable none none none c = false ∧
    lendingHeaderView false true = HeaderView.errorPlaceholder := by
  have hz : roundTo6 0 = 0 := by norm_num [roundTo6]
  have hall : allDepositsZero none = true := by
    simp [allDepositsZero, formattedBalances]
  have hshow : showsDepositsTable none none none c = false := by
    simp [showsDepositsTable, hall]
  simp only [chainDeposits, formattedBalances, formattedMints,
    formattedMintingPower, depositsFor] at hr
  split_ifs at hr <;> simp only [List.mem_cons, List.not_mem_nil, or_false] at hr
  · rcases hr with rfl | rfl <;> exact ⟨by simpa using hz, by simpa using hz, rfl, hshow, rfl⟩
  · rcases hr with rfl | rfl | rfl | rfl | rfl <;>
      exact ⟨by simpa using hz, by simpa using hz, rfl, hshow, rfl⟩
  · rcases hr with rfl | rfl <;> exact ⟨by simpa using hz, by simpa using hz, rfl, hshow, rfl⟩

/-- Witness for C7: the first chain-56 row under failed reads. -/
theorem failed_reads_show_zeros_witness :
    ((chainDeposits none none none 56).get
        ⟨0, by simp [chainDeposits, depositsFor]⟩).amount = 0 ∧
    ((chainDeposits none none none 56).get
        ⟨0, by simp [chainDeposits, depositsFor]⟩).minted = 0 ∧
    ((chainDeposits none none none 56).get
        ⟨0, by simp [chainDeposits, depositsFor]⟩).mintingPower = 0 ∧
    showsDepositsTable none none none 56 = false ∧
    lendingHeaderView false true = HeaderView.errorPlaceholder :=
  failed_reads_show_zeros 56 _ (List.get_mem _ _ _)

/-! ## C8 — placeholder condition of `YourDeposits` -/

/-- C8: the "Nothing deposited yet" placeholder is rendered iff the
current chain's deposit list is empty or all five formatted batch-deposit
balances are zero; on chain 56 (two rows) a non-zero balance in unused
slot 2 still forces the table view. -/
theorem deposits_placeholder_iff (c : ℤ) (batch mints : Option (List ℤ))
    (power : Option ℤ) :
    (showsDepositsTable batch mints power c = false ↔
      chainDeposits batch mints power c = [] ∨ allDepositsZero batch = true)
    ∧ showsDepositsTable (some [0, 0, 10 ^ 18, 0, 0]) none none 56 = true
    ∧ showsDepositsTable (some [0, 0, 0, 0, 0]) none none 56 = false
    ∧ (chainDeposits (some [0, 0, 10 ^ 18, 0, 0]) none none 56).length = 2 := by
  have h3 : ((((10 : ℤ) ^ 18 : ℤ) : ℚ) / 10 ^ 18 == 0) = false :=
    beq_eq_false_iff_ne.mpr (by norm_num)
  have h0 : ((((0 : ℤ)) : ℚ) / 10 ^ 18 == 0) = true := by
    rw [beq_iff_eq]; norm_num
  refine ⟨?_, ?_, ?_, ?_⟩
  · constructor
    · intro hf
      by_cases hb : allDepositsZero batch = true
      · exact Or.inr hb
      · left
        have hb' : allDepositsZero batch = false := Bool.not_eq_true _ ▸ eq_false_of_ne_true hb
        rw [showsDepositsTable, hb'] at hf
        simp only [Bool.not_false, Bool.and_true, decide_eq_false_iff_not, not_lt,
          Nat.le_zero] at hf
        exact List.length_eq_zero.mp hf
    · rintro (h | h) <;> simp [showsDepositsTable, h]
  · simp [showsDepositsTable, chainDeposits, depositsFor, allDepositsZero,
      formattedBalances, List.all_cons, h3, h0]
  · simp [showsDepositsTable, chainDeposits, depositsFor, allDepositsZero,
      formattedBalances, List.all_cons, h0]
  · simp [chainDeposits, depositsFor]

/-! ## C9 — registry invariant: maxLTV ≤ liquidationThreshold -/

/-- C9: in both static registries, every asset of every network has its
maxLTV percentage at most its liquidationThreshold percentage. -/
theorem registry_maxLTV_le_liquidationThreshold (c : ℤ) (a : AssetDescr) :
    (a ∈ CdpDepositTable.chainAssets c →
      ∃ m t, jsParseFloat a.maxLTV = some m ∧
        jsParseFloat a.liquidationThreshold = some t ∧ m ≤ t)
    ∧ (a ∈ TrDepositTable.chainAssets c →
      ∃ m t, jsParseFloat a.maxLTV = some m ∧
        jsParseFloat a.liquidationThreshold = some t ∧ m ≤ t) := by
  constructor
  · intro ha
    simp only [CdpDepositTable.chainAssets, CdpDepositTable.assets] at ha
    split_ifs at ha <;> simp only [Option.getD_some, Option.getD_none] at ha <;>
      [skip; skip; skip; exact absurd ha (by simp)] <;>
      fin_cases ha <;>
      first
      | exact ⟨85, 85, parse_pct85, parse_pct85, le_refl _⟩
      | exact ⟨70, 85, parse_pct70, parse_pct85, by norm_num⟩
      | exact ⟨60, 85, parse_pct60, parse_pct85, by norm_num⟩
      | exact ⟨80, 85, parse_pct80, parse_pct85, by norm_num⟩
  · intro ha
    simp only [TrDepositTable.chainAssets, TrDepositTable.assets] at ha
    split_ifs at ha <;> simp only [Option.getD_some, Option.getD_none] at ha <;>
      [skip; skip; skip; exact absurd ha (by simp)] <;>
      fin_cases ha <;>
      first
      | exact ⟨85, 85, parse_pct85, parse_pct85, le_refl _⟩
      | exact ⟨70, 85, parse_pct70, parse_pct85, by norm_num⟩
      | exact ⟨60, 85, parse_pct60, parse_pct85, by norm_num⟩
      | exact ⟨80, 85, parse_pct80, parse_pct85, by norm_num⟩

/-- Witness for C9 at the chain-56 WETH descriptor (present in both
registries). -/
theorem registry_maxLTV_le_liquidationThreshold_witness :
    (∃ m t,
      jsParseFloat (AssetDescr.mk "WETH" "85%" "85%"
        "0xd411BE9A105Ea7701FabBe58C2834b7033EBC203"
        "0x2170ed0880ac9a755fd29b2688956bd959f933f8").maxLTV = some m ∧
      jsParseFloat (AssetDescr.mk "WETH" "85%" "85%"
        "0xd411BE9A105Ea7701FabBe58C2834b7033EBC203"
        "0x2170ed0880ac9a755fd29b2688956bd959f933f8").liquidationThreshold = some t ∧
      m ≤ t)
    ∧ (∃ m t,
      jsParseFloat (AssetDescr.mk "WETH" "85%" "85%"
        "0xd411BE9A105Ea7701FabBe58C2834b7033EBC203"
        "0x2170ed0880ac9a755fd29b2688956bd959f933f8").maxLTV = some m ∧
      jsParseFloat (AssetDescr.mk "WETH" "85%" "85%"
        "0xd411BE9A105Ea7701FabBe58C2834b7033EBC203"
        "0x2170ed0880ac9a755fd29b2688956bd959f933f8").liquidationThreshold = some t ∧
      m ≤ t) :=
  ⟨(registry_maxLTV_le_liquidationThreshold 56 _).1 (by decide),
   (registry_maxLTV_le_liquidationThreshold 56 _).2 (by decide)⟩

end Xoc
